import Mathlib

/-!
Shallow embedding of the scene-backend event/RSVP/payment/analytics core.

The store is modelled as two lists mirroring the `events` and `attendees`
SQLite tables.  Each HTTP handler that the claims are about becomes a pure
function over the store:

* `rsvp`           — `POST /api/events/:id/rsvp`
* `confirmPayment` — `POST /api/attendees/:id/confirm-payment`
* `summarize`      — `GET /api/events/:id/analytics`
* `createEvent`    — `POST /api/events`

SQL `SELECT ... WHERE id = ?` `.get` becomes `List.find?`; `COUNT(*)` and the
`SUM(CASE WHEN status = ...)` aggregates become `List.countP`; `INSERT`
appends a row; `UPDATE ... WHERE id = ?` maps the update over the table.
-/

namespace Scene

/-- Attendee status values stored in the `status` TEXT column: the code
writes `unpaid`, `paid` and `confirmed`, and the analytics query also
inspects `waitlist`. -/
inductive Status where
  | unpaid
  | paid
  | confirmed
  | waitlist
deriving DecidableEq

/-- Row of the `events` table, with the columns written by
`POST /api/events` (server-generated columns such as `created_at` and the
never-written `image_url` omitted).  `is_paid` is stored as 0/1 and modelled
as `Bool`; `ticket_price` (a SQLite REAL) as `Rat`. -/
structure Event where
  id : String
  userId : String
  name : String
  description : String
  location : String
  dateTime : Int
  capacity : Int
  isPaid : Bool
  ticketPrice : Rat
  paymentMethod : String
  paymentInstructions : String
  customQuestions : String
deriving DecidableEq

/-- Row of the `attendees` table, with the columns written by the RSVP
handler (`rsvp_date` omitted).  `payment_id` is nullable, hence `Option`. -/
structure Attendee where
  id : String
  eventId : String
  name : String
  email : String
  status : Status
  paymentId : Option String
  customAnswers : String
deriving DecidableEq

/-- The persistent store: the two tables the claims are about. -/
structure Store where
  events : List Event
  attendees : List Attendee
deriving DecidableEq

/-- Error responses the handlers can produce: 404 `Event not found` /
`Attendee not found` and 400 `Event is full`. -/
inductive ApiError where
  | notFound
  | capacityExceeded
deriving DecidableEq

/-- Point lookup SELECT * FROM events WHERE id = ? followed by .get. -/
def findEvent (s : Store) (eventId : String) : Option Event :=
  s.events.find? (fun e => e.id == eventId)

/-- Aggregate SELECT COUNT(*) as count FROM attendees WHERE event_id = ?. -/
def countAttendees (s : Store) (eventId : String) : Nat :=
  s.attendees.countP (fun a => a.eventId == eventId)

/-- Aggregate SUM(CASE WHEN status = st THEN 1 ELSE 0 END) over one event. -/
def countWithStatus (s : Store) (eventId : String) (st : Status) : Nat :=
  s.attendees.countP (fun a => a.eventId == eventId && a.status == st)

/-- Request body of `POST /api/events/:id/rsvp`: `{ name, email, answers }`
(`answers` modelled as its serialized form). -/
structure RsvpRequest where
  name : String
  email : String
  answers : String
deriving DecidableEq

/-- Successful RSVP outcome: the updated store plus the response body
`{ attendeeId, status }`. -/
structure RsvpResult where
  store : Store
  attendeeId : String
  status : Status
deriving DecidableEq

/-- The attendee row inserted by a successful RSVP. -/
def newAttendee (eventId attendeeId : String) (req : RsvpRequest) (st : Status) : Attendee :=
  { id := attendeeId, eventId := eventId, name := req.name, email := req.email,
    status := st, paymentId := none, customAnswers := req.answers }

/-- Handler of `POST /api/events/:id/rsvp` (src/unnamed/part_000 lines
189-219): look up the event (404 if absent), count the event's attendee rows,
reject with `Event is full` when `count >= capacity`, otherwise insert one
attendee whose status is `unpaid` for a paid event and `confirmed` for a
free one, returning `{ attendeeId, status }`.  The fresh `uuidv4()` id is a
parameter. -/
def rsvp (s : Store) (eventId attendeeId : String) (req : RsvpRequest) :
    Except ApiError RsvpResult :=
  match findEvent s eventId with
  | none => Except.error ApiError.notFound
  | some event =>
    if (countAttendees s eventId : Int) ≥ event.capacity then
      Except.error ApiError.capacityExceeded
    else
      let st := if event.isPaid then Status.unpaid else Status.confirmed
      Except.ok { store := { s with attendees := s.attendees ++ [newAttendee eventId attendeeId req st] },
                  attendeeId := attendeeId, status := st }

/-- One RSVP call: event id, fresh attendee id, request body. -/
structure RsvpCall where
  eventId : String
  attendeeId : String
  req : RsvpRequest
deriving DecidableEq

/-- Effect of one RSVP call on the store: on failure the handler returns an
error response and the store is untouched. -/
def rsvpStep (s : Store) (c : RsvpCall) : Store :=
  match rsvp s c.eventId c.attendeeId c.req with
  | Except.ok r => r.store
  | Except.error _ => s

/-- Effect of a sequence of RSVP calls, performed one after the other. -/
def runRsvps (s : Store) (cs : List RsvpCall) : Store :=
  cs.foldl rsvpStep s

/-- Row update of UPDATE attendees SET status = paid, payment_id = ?
WHERE id = ? applied to one row. -/
def applyPayment (attendeeId paymentId : String) (a : Attendee) : Attendee :=
  if a.id == attendeeId then { a with status := Status.paid, paymentId := some paymentId }
  else a

/-- Handler of `POST /api/attendees/:id/confirm-payment` (src/unnamed/part_000
lines 247-262): runs the UPDATE with no existence check and always responds
`Payment confirmed`; rows whose id does not match are untouched, and when no
row matches the whole store is unchanged. -/
def confirmPayment (s : Store) (attendeeId paymentId : String) : Store :=
  { s with attendees := s.attendees.map (applyPayment attendeeId paymentId) }

/-- Analytics response body of `GET /api/events/:id/analytics`. -/
structure Analytics where
  totalAttendees : Nat
  paidCount : Nat
  unpaidCount : Nat
  waitlistCount : Nat
  revenue : Rat
  capacity : Int
  eventDate : Int
deriving DecidableEq

/-- Handler of `GET /api/events/:id/analytics` (src/unnamed/part_000 lines
393-421): 404 when the event is absent; otherwise `COUNT(*)` plus the three
status buckets, and `revenue = event.is_paid ? paid_count * event.ticket_price
: 0`. -/
def summarize (s : Store) (eventId : String) : Except ApiError Analytics :=
  match findEvent s eventId with
  | none => Except.error ApiError.notFound
  | some event =>
    Except.ok
      { totalAttendees := countAttendees s eventId,
        paidCount := countWithStatus s eventId Status.paid,
        unpaidCount := countWithStatus s eventId Status.unpaid,
        waitlistCount := countWithStatus s eventId Status.waitlist,
        revenue := if event.isPaid then (countWithStatus s eventId Status.paid : Rat) * event.ticketPrice else 0,
        capacity := event.capacity,
        eventDate := event.dateTime }

/-- Request body of `POST /api/events`.  Fields the handler defaults when
falsy (`ticketPrice || 0`, `paymentMethod || \x27none\x27`,
`paymentInstructions || \x27\x27`, `customQuestions || []`) are `Option`s. -/
structure CreateEventInput where
  name : String
  description : String
  location : String
  dateTime : Int
  capacity : Int
  isPaid : Bool
  ticketPrice : Option Rat
  paymentMethod : Option String
  paymentInstructions : Option String
  customQuestions : Option String
deriving DecidableEq

/-- Handler of `POST /api/events` (src/unnamed/part_000 lines 109-154): every
request-body field, `capacity` included, is inserted verbatim with no
validation; the fresh event id and the authenticated user id are
parameters. -/
def createEvent (s : Store) (eventId userId : String) (inp : CreateEventInput) :
    Store × String :=
  ({ s with events := s.events ++
      [{ id := eventId, userId := userId, name := inp.name,
         description := inp.description, location := inp.location,
         dateTime := inp.dateTime, capacity := inp.capacity,
         isPaid := inp.isPaid, ticketPrice := inp.ticketPrice.getD 0,
         paymentMethod := inp.paymentMethod.getD "none",
         paymentInstructions := inp.paymentInstructions.getD "",
         customQuestions := inp.customQuestions.getD "[]" }] },
   eventId)

/-- Decidable equality of handler results, so that concrete runs can be
checked by evaluation. -/
instance {ε α : Type} [DecidableEq ε] [DecidableEq α] : DecidableEq (Except ε α) :=
  fun x y =>
  match x, y with
  | Except.ok a, Except.ok b =>
    if h : a = b then isTrue (by rw [h]) else isFalse (fun hc => h (Except.ok.inj hc))
  | Except.ok _, Except.error _ => isFalse (fun hc => Except.noConfusion hc)
  | Except.error _, Except.ok _ => isFalse (fun hc => Except.noConfusion hc)
  | Except.error e, Except.error f =>
    if h : e = f then isTrue (by rw [h]) else isFalse (fun hc => h (Except.error.inj hc))

/-! Concrete fixtures used to evaluate the handlers on sample data. -/

/-- A free event with capacity 1. -/
def wFree : Event :=
  { id := "e1", userId := "u1", name := "meetup", description := "",
    location := "", dateTime := 1700000000, capacity := 1, isPaid := false,
    ticketPrice := 0, paymentMethod := "none", paymentInstructions := "",
    customQuestions := "[]" }

/-- A paid event with capacity 2 and ticket price 10. -/
def wPaid : Event :=
  { id := "e2", userId := "u1", name := "concert", description := "",
    location := "", dateTime := 1700000000, capacity := 2, isPaid := true,
    ticketPrice := 10, paymentMethod := "stripe", paymentInstructions := "",
    customQuestions := "[]" }

/-- A sample RSVP request body. -/
def wReq : RsvpRequest := { name := "alice", email := "alice@example.com", answers := "" }

/-- A store holding both sample events and no attendees. -/
def wStore : Store := { events := [wFree, wPaid], attendees := [] }

/-- An attendee filling the free event to capacity. -/
def wAtt1 : Attendee :=
  { id := "a1", eventId := "e1", name := "alice", email := "alice@example.com",
    status := Status.confirmed, paymentId := none, customAnswers := "" }

/-- A store in which the free event is at capacity. -/
def wFullStore : Store := { events := [wFree], attendees := [wAtt1] }

/-- A paid attendee of the paid event. -/
def wAtt2 : Attendee :=
  { id := "a2", eventId := "e2", name := "bob", email := "bob@example.com",
    status := Status.paid, paymentId := some "ref-2", customAnswers := "" }

/-- A store in which the paid event has one paid attendee. -/
def wPaidStore : Store := { events := [wPaid], attendees := [wAtt2] }

/-- Analytics record reported for `wPaidStore` / event e2. -/
def wAna : Analytics :=
  { totalAttendees := 1, paidCount := 1, unpaidCount := 0, waitlistCount := 0,
    revenue := 10, capacity := 2, eventDate := 1700000000 }

/-- Two confirmed attendees of the free event (capacity is ignored here:
they are pre-existing rows used to probe the analytics query). -/
def wConfStore : Store :=
  { events := [{ wFree with capacity := 5 }],
    attendees := [wAtt1, { wAtt1 with id := "a9", name := "carol" }] }

/-- Analytics record reported for `wConfStore` / event e1: both confirmed
attendees are counted in the total, none in the three buckets. -/
def wConfAna : Analytics :=
  { totalAttendees := 2, paidCount := 0, unpaidCount := 0, waitlistCount := 0,
    revenue := 0, capacity := 5, eventDate := 1700000000 }

/-- The store with no rows at all. -/
def emptyStore : Store := { events := [], attendees := [] }

/-- Event-creation request whose capacity is negative; the handler performs
no validation, so it is accepted as-is. -/
def negCapacityInput : CreateEventInput :=
  { name := "n", description := "", location := "", dateTime := 0, capacity := -1,
    isPaid := false, ticketPrice := none, paymentMethod := none,
    paymentInstructions := none, customQuestions := none }

/-- Event-creation request with a nonnegative capacity. -/
def goodInput : CreateEventInput :=
  { name := "n", description := "", location := "", dateTime := 0, capacity := 5,
    isPaid := false, ticketPrice := none, paymentMethod := none,
    paymentInstructions := none, customQuestions := none }

/-- The event that `createEvent` produces from `goodInput`. -/
def goodEvent : Event :=
  { id := "e9", userId := "u1", name := "n", description := "", location := "",
    dateTime := 0, capacity := 5, isPaid := false, ticketPrice := 0,
    paymentMethod := "none", paymentInstructions := "", customQuestions := "[]" }

/-- Result of the first RSVP against the free event in `wStore`. -/
def wRes3 : RsvpResult :=
  { store := { wStore with attendees := [newAttendee "e1" "a1" wReq Status.confirmed] },
    attendeeId := "a1", status := Status.confirmed }

/-- Result of the first RSVP against the paid event in `wStore`. -/
def wRes4 : RsvpResult :=
  { store := { wStore with attendees := [newAttendee "e2" "a1" wReq Status.unpaid] },
    attendeeId := "a1", status := Status.unpaid }

/-! Helper lemmas about the handlers. -/

/-- An RSVP call either leaves the store untouched (error response) or, when
the event exists and has spare capacity, appends exactly the new attendee
row. -/
theorem rsvpStep_shape (s : Store) (c : RsvpCall) :
    rsvpStep s c = s ∨
    ∃ e, findEvent s c.eventId = some e ∧
      (countAttendees s c.eventId : Int) < e.capacity ∧
      rsvpStep s c = { s with attendees := s.attendees ++
        [newAttendee c.eventId c.attendeeId c.req
          (if e.isPaid then Status.unpaid else Status.confirmed)] } := by
  unfold rsvpStep rsvp
  cases hf : findEvent s c.eventId with
  | none => exact Or.inl rfl
  | some e =>
    dsimp only
    by_cases hge : (countAttendees s c.eventId : Int) ≥ e.capacity
    · rw [if_pos hge]
      exact Or.inl rfl
    · rw [if_neg hge]
      exact Or.inr ⟨e, rfl, lt_of_not_ge hge, rfl⟩

/-- RSVP never touches the events table. -/
theorem rsvpStep_events (s : Store) (c : RsvpCall) : (rsvpStep s c).events = s.events := by
  rcases rsvpStep_shape s c with h | ⟨e, _, _, h⟩ <;> rw [h]

/-- Event lookup only reads the events table. -/
theorem findEvent_congr {s t : Store} (h : s.events = t.events) (eid : String) :
    findEvent s eid = findEvent t eid := by
  unfold findEvent
  rw [h]

/-- Appending one attendee row raises the count of its event by one and
leaves every other count unchanged. -/
theorem countAttendees_append (s : Store) (a : Attendee) (eid : String) :
    countAttendees { s with attendees := s.attendees ++ [a] } eid =
      countAttendees s eid + (if a.eventId = eid then 1 else 0) := by
  simp [countAttendees, List.countP_append, List.countP_cons, beq_iff_eq]

/-- One RSVP call preserves the capacity bound of every event. -/
theorem rsvpStep_count_le (s : Store) (c : RsvpCall) (eid : String) (e : Event)
    (he : findEvent s eid = some e)
    (h0 : (countAttendees s eid : Int) ≤ e.capacity) :
    (countAttendees (rsvpStep s c) eid : Int) ≤ e.capacity := by
  rcases rsvpStep_shape s c with h | ⟨ev, hf, hlt, h⟩
  · rw [h]; exact h0
  · rw [h, countAttendees_append]
    by_cases hc : c.eventId = eid
    · subst hc
      have hev : ev = e := Option.some.inj (hf.symm.trans he)
      subst hev
      simp only [newAttendee, if_pos rfl]
      push_cast
      omega
    · have : (newAttendee c.eventId c.attendeeId c.req
          (if ev.isPaid then Status.unpaid else Status.confirmed)).eventId = c.eventId := rfl
      rw [this, if_neg hc]
      simpa using h0

/-- The count with one fixed status never exceeds the plain count. -/
theorem countP_status_split (l : List Attendee) (eid : String) :
    l.countP (fun a => a.eventId == eid && a.status == Status.paid) +
      l.countP (fun a => a.eventId == eid && a.status == Status.unpaid) +
      l.countP (fun a => a.eventId == eid && a.status == Status.waitlist) +
      l.countP (fun a => a.eventId == eid && a.status == Status.confirmed) =
      l.countP (fun a => a.eventId == eid) := by
  induction l with
  | nil => rfl
  | cons a l ih =>
    simp only [List.countP_cons]
    cases hst : a.status <;> by_cases he : a.eventId == eid <;>
      simp [hst, he] <;> omega

/-- Components of a successful analytics response. -/
theorem summarize_ok_counts (s : Store) (eid : String) (r : Analytics)
    (hr : summarize s eid = Except.ok r) :
    r.totalAttendees = countAttendees s eid ∧
    r.paidCount = countWithStatus s eid Status.paid ∧
    r.unpaidCount = countWithStatus s eid Status.unpaid ∧
    r.waitlistCount = countWithStatus s eid Status.waitlist := by
  unfold summarize at hr
  cases hf : findEvent s eid with
  | none => rw [hf] at hr; exact absurd hr (by simp)
  | some e =>
    rw [hf] at hr
    cases Except.ok.inj hr
    exact ⟨rfl, rfl, rfl, rfl⟩

/-- When every attendee of the event is confirmed, each of the three other
status buckets is empty. -/
theorem countWithStatus_zero_of_all_confirmed (s : Store) (eid : String) (st : Status)
    (h : ∀ a ∈ s.attendees, a.eventId = eid → a.status = Status.confirmed)
    (hst : st ≠ Status.confirmed) :
    countWithStatus s eid st = 0 := by
  unfold countWithStatus
  rw [List.countP_eq_zero]
  intro a ha
  simp only [Bool.and_eq_true, beq_iff_eq, not_and]
  intro h1 h2
  exact hst (h2 ▸ h a ha h1)

/-! Claim theorems. -/

/-- C1: for every event with capacity C, starting from a store in which the
event has at most C attendee rows, no sequence of RSVP calls ever brings the
number of attendee rows of that event above C: a call that would do so is
rejected and inserts nothing. -/
theorem rsvp_capacity_invariant (s : Store) (eid : String) (e : Event) (cs : List RsvpCall)
    (he : findEvent s eid = some e)
    (h0 : (countAttendees s eid : Int) ≤ e.capacity) :
    (countAttendees (runRsvps s cs) eid : Int) ≤ e.capacity := by
  induction cs generalizing s with
  | nil => exact h0
  | cons c cs ih =>
    have he2 : findEvent (rsvpStep s c) eid = some e := by
      rw [findEvent_congr (rsvpStep_events s c) eid]
      exact he
    exact ih (rsvpStep s c) he2 (rsvpStep_count_le s c eid e he h0)

/-- Witness for C1: the free event of capacity 1 never holds more than one
attendee across three successive RSVP calls. -/
theorem rsvp_capacity_invariant_witness :
    (countAttendees (runRsvps wStore
        [⟨"e1", "a1", wReq⟩, ⟨"e1", "a2", wReq⟩, ⟨"e1", "a3", wReq⟩]) "e1" : Int)
      ≤ wFree.capacity :=
  rsvp_capacity_invariant wStore "e1" wFree
    [⟨"e1", "a1", wReq⟩, ⟨"e1", "a2", wReq⟩, ⟨"e1", "a3", wReq⟩] (by decide) (by decide)

/-- C2: for an existing event, an RSVP fails with the capacity error whenever
the current attendee count (all statuses) is at least the capacity, and the
store is left unchanged. -/
theorem rsvp_capacity_exceeded (s : Store) (eid aid : String) (req : RsvpRequest) (e : Event)
    (he : findEvent s eid = some e)
    (hc : (countAttendees s eid : Int) ≥ e.capacity) :
    rsvp s eid aid req = Except.error ApiError.capacityExceeded ∧
    rsvpStep s ⟨eid, aid, req⟩ = s := by
  have h1 : rsvp s eid aid req = Except.error ApiError.capacityExceeded := by
    unfold rsvp
    rw [he]
    dsimp only
    rw [if_pos hc]
  refine ⟨h1, ?_⟩
  unfold rsvpStep
  rw [h1]

/-- Witness for C2: a second RSVP against the full capacity-1 event is
rejected and inserts nothing. -/
theorem rsvp_capacity_exceeded_witness :
    rsvp wFullStore "e1" "a2" wReq = Except.error ApiError.capacityExceeded ∧
    rsvpStep wFullStore ⟨"e1", "a2", wReq⟩ = wFullStore :=
  rsvp_capacity_exceeded wFullStore "e1" "a2" wReq wFree (by decide) (by decide)

/-- C3: every accepted RSVP returns status unpaid for a paid event and
confirmed for a free one, and appends exactly one attendee row carrying that
same status. -/
theorem rsvp_accepted_status (s : Store) (eid aid : String) (req : RsvpRequest) (e : Event)
    (r : RsvpResult) (he : findEvent s eid = some e)
    (h : rsvp s eid aid req = Except.ok r) :
    r.status = (if e.isPaid then Status.unpaid else Status.confirmed) ∧
    r.attendeeId = aid ∧
    r.store.attendees = s.attendees ++ [newAttendee eid aid req r.status] := by
  unfold rsvp at h
  rw [he] at h
  dsimp only at h
  by_cases hge : (countAttendees s eid : Int) ≥ e.capacity
  · rw [if_pos hge] at h
    exact absurd h (by simp)
  · rw [if_neg hge] at h
    cases Except.ok.inj h
    exact ⟨rfl, rfl, rfl⟩

/-- Witness for C3: the free event yields a confirmed attendee, the paid
event an unpaid one, persisted and returned alike. -/
theorem rsvp_accepted_status_witness :
    (wRes3.status = (if wFree.isPaid then Status.unpaid else Status.confirmed) ∧
      wRes3.attendeeId = "a1" ∧
      wRes3.store.attendees = wStore.attendees ++ [newAttendee "e1" "a1" wReq wRes3.status]) ∧
    (wRes4.status = (if wPaid.isPaid then Status.unpaid else Status.confirmed) ∧
      wRes4.attendeeId = "a1" ∧
      wRes4.store.attendees = wStore.attendees ++ [newAttendee "e2" "a1" wReq wRes4.status]) :=
  ⟨rsvp_accepted_status wStore "e1" "a1" wReq wFree wRes3 (by decide) (by decide),
   rsvp_accepted_status wStore "e2" "a1" wReq wPaid wRes4 (by decide) (by decide)⟩

/-- C4: an RSVP against an absent event id fails with the not-found error and
leaves the store unchanged. -/
theorem rsvp_not_found (s : Store) (eid aid : String) (req : RsvpRequest)
    (he : findEvent s eid = none) :
    rsvp s eid aid req = Except.error ApiError.notFound ∧
    rsvpStep s ⟨eid, aid, req⟩ = s := by
  have h1 : rsvp s eid aid req = Except.error ApiError.notFound := by
    unfold rsvp
    rw [he]
  refine ⟨h1, ?_⟩
  unfold rsvpStep
  rw [h1]

/-- Witness for C4: an RSVP against an id matching no event is a rejected
no-op. -/
theorem rsvp_not_found_witness :
    rsvp wStore "ghost" "a1" wReq = Except.error ApiError.notFound ∧
    rsvpStep wStore ⟨"ghost", "a1", wReq⟩ = wStore :=
  rsvp_not_found wStore "ghost" "a1" wReq (by decide)

/-- C5: the handler performs no existence check: confirming payment for an
attendee id matching no row responds successfully and updates zero rows, so
no not-found failure is surfaced, contrary to the claim. -/
theorem confirmPayment_missing_attendee_noop :
    (wFullStore.attendees.all (fun a => decide (a.id ≠ "ghost"))) = true ∧
    confirmPayment wFullStore "ghost" "pay-9" = wFullStore := by decide

/-- C6: confirming payment leaves the events table and the number of
attendee rows unchanged; every row matching the given id keeps all its
fields except status, set to paid, and the stored payment reference, and
every other row is untouched. -/
theorem confirmPayment_updates_only_target (s : Store) (aid ref : String) :
    (confirmPayment s aid ref).events = s.events ∧
    (confirmPayment s aid ref).attendees.length = s.attendees.length ∧
    ∀ a ∈ s.attendees,
      (a.id = aid →
        { a with status := Status.paid, paymentId := some ref } ∈
          (confirmPayment s aid ref).attendees) ∧
      (a.id ≠ aid → a ∈ (confirmPayment s aid ref).attendees) := by
  refine ⟨rfl, by simp [confirmPayment], fun a ha => ⟨fun hid => ?_, fun hid => ?_⟩⟩
  · have hupd : applyPayment aid ref a = { a with status := Status.paid, paymentId := some ref } := by
      simp [applyPayment, hid]
    exact hupd ▸ List.mem_map_of_mem (applyPayment aid ref) ha
  · have hupd : applyPayment aid ref a = a := by
      simp [applyPayment, hid]
    exact hupd ▸ List.mem_map_of_mem (applyPayment aid ref) ha

/-- Witness for C6: confirming payment for the confirmed attendee of the full
free event stores status paid plus the reference while keeping its other
fields. -/
theorem confirmPayment_updates_only_target_witness :
    { wAtt1 with status := Status.paid, paymentId := some "ref-1" } ∈
      (confirmPayment wFullStore "a1" "ref-1").attendees :=
  ((confirmPayment_updates_only_target wFullStore "a1" "ref-1").2.2 wAtt1 (by decide)).1 rfl

/-- C7: a successful analytics response reports revenue equal to the paid
count times the ticket price for a paid event and exactly 0 for a free one,
and the handler fails with not-found when the event is absent. -/
theorem summarize_revenue (s : Store) (eid : String) :
    (∀ r e, summarize s eid = Except.ok r → findEvent s eid = some e →
      r.revenue = (if e.isPaid then (r.paidCount : Rat) * e.ticketPrice else 0)) ∧
    (findEvent s eid = none → summarize s eid = Except.error ApiError.notFound) := by
  constructor
  · intro r e hr he
    unfold summarize at hr
    rw [he] at hr
    dsimp only at hr
    cases Except.ok.inj hr
    rfl
  · intro he
    unfold summarize
    rw [he]

/-- Witness for C7: the paid event with one paid attendee reports revenue
1 × 10. -/
theorem summarize_revenue_witness :
    wAna.revenue = (if wPaid.isPaid then (wAna.paidCount : Rat) * wPaid.ticketPrice else 0) :=
  (summarize_revenue wPaidStore "e2").1 wAna wPaid
    (by simp [summarize, findEvent, countAttendees, countWithStatus, wPaidStore, wPaid, wAtt2, wAna])
    (by decide)

/-- C8: repeating a payment confirmation with the same reference leaves the
store exactly as after the first confirmation, so every analytics response,
its paid count and revenue included, is unchanged by the repeat. -/
theorem confirmPayment_idem (s : Store) (aid ref : String) :
    confirmPayment (confirmPayment s aid ref) aid ref = confirmPayment s aid ref ∧
    ∀ eid, summarize (confirmPayment (confirmPayment s aid ref) aid ref) eid =
      summarize (confirmPayment s aid ref) eid := by
  have hpt : ∀ a, applyPayment aid ref (applyPayment aid ref a) = applyPayment aid ref a := by
    intro a
    by_cases h : a.id = aid <;> simp [applyPayment, h]
  have hmain : confirmPayment (confirmPayment s aid ref) aid ref = confirmPayment s aid ref := by
    unfold confirmPayment
    simp only [List.map_map]
    congr 1
    exact List.map_congr_left (fun a _ => hpt a)
  exact ⟨hmain, fun eid => by rw [hmain]⟩

/-- C9 counterexample: the event-creation handler accepts a request whose
capacity is negative and persists an event with capacity below 0, refuting
the claimed invariant for every accepted input. -/
theorem createEvent_negative_capacity_cex :
    ((createEvent emptyStore "e1" "u1" negCapacityInput).1.events.any
      (fun e => decide (e.capacity < 0))) = true := by decide

/-- C9 (amended): event creation copies the requested capacity verbatim with
no validation, so the produced event satisfies the nonnegativity invariant
exactly when the input capacity is nonnegative. -/
theorem createEvent_capacity_passthrough (s : Store) (eid uid : String)
    (inp : CreateEventInput) (h : 0 ≤ inp.capacity) :
    ∀ e ∈ ((createEvent s eid uid inp).1).events,
      e ∈ s.events ∨ (e.capacity = inp.capacity ∧ 0 ≤ e.capacity) := by
  intro e hm
  rcases List.mem_append.mp hm with h1 | h1
  · exact Or.inl h1
  · cases List.mem_singleton.mp h1
    exact Or.inr ⟨rfl, h⟩

/-- Witness for C9 (amended): a capacity-5 request produces the expected
event with nonnegative capacity. -/
theorem createEvent_capacity_passthrough_witness :
    goodEvent ∈ (createEvent emptyStore "e9" "u1" goodInput).1.events ∧
    (goodEvent ∈ emptyStore.events ∨
      (goodEvent.capacity = goodInput.capacity ∧ 0 ≤ goodEvent.capacity)) :=
  ⟨by decide,
   createEvent_capacity_passthrough emptyStore "e9" "u1" goodInput (by decide)
     goodEvent (by decide)⟩

/-- C10: in every successful analytics response the three status buckets
plus the confirmed attendees add up to the total, and when all of the
event's attendees are confirmed the buckets are all 0 while the total counts
them, strictly exceeding the bucket sum whenever the event has any
attendee. -/
theorem analytics_confirmed_outside_buckets (s : Store) (eid : String) (r : Analytics)
    (hr : summarize s eid = Except.ok r) :
    r.paidCount + r.unpaidCount + r.waitlistCount + countWithStatus s eid Status.confirmed
        = r.totalAttendees ∧
    ((∀ a ∈ s.attendees, a.eventId = eid → a.status = Status.confirmed) →
      r.paidCount = 0 ∧ r.unpaidCount = 0 ∧ r.waitlistCount = 0 ∧
      r.totalAttendees = countAttendees s eid ∧
      (0 < countAttendees s eid →
        r.paidCount + r.unpaidCount + r.waitlistCount < r.totalAttendees)) := by
  obtain ⟨ht, hp, hu, hw⟩ := summarize_ok_counts s eid r hr
  constructor
  · rw [ht, hp, hu, hw]
    exact countP_status_split s.attendees eid
  · intro hall
    have hp0 : r.paidCount = 0 := by
      rw [hp]
      exact countWithStatus_zero_of_all_confirmed s eid Status.paid hall (by decide)
    have hu0 : r.unpaidCount = 0 := by
      rw [hu]
      exact countWithStatus_zero_of_all_confirmed s eid Status.unpaid hall (by decide)
    have hw0 : r.waitlistCount = 0 := by
      rw [hw]
      exact countWithStatus_zero_of_all_confirmed s eid Status.waitlist hall (by decide)
    refine ⟨hp0, hu0, hw0, ht, fun hpos => ?_⟩
    rw [hp0, hu0, hw0, ht]
    omega

/-- Witness for C10: a free event whose two attendees are both confirmed
reports total 2 with all three buckets 0. -/
theorem analytics_confirmed_outside_buckets_witness :
    (wConfAna.paidCount + wConfAna.unpaidCount + wConfAna.waitlistCount +
        countWithStatus wConfStore "e1" Status.confirmed = wConfAna.totalAttendees) ∧
    (wConfAna.paidCount = 0 ∧ wConfAna.unpaidCount = 0 ∧ wConfAna.waitlistCount = 0 ∧
      wConfAna.totalAttendees = countAttendees wConfStore "e1" ∧
      (0 < countAttendees wConfStore "e1" →
        wConfAna.paidCount + wConfAna.unpaidCount + wConfAna.waitlistCount <
          wConfAna.totalAttendees)) := by
  have h := analytics_confirmed_outside_buckets wConfStore "e1" wConfAna (by decide)
  exact ⟨h.1, h.2 (by decide)⟩

end Scene
